import Mathlib

/-!
Shallow embedding of src/movie_rest_orm_api/crud.py (a SQLAlchemy data-access
layer over two tables, Movie and Star) and verification of its specification.

Modelling conventions:
- The database session is a pure value `DB` holding the two tables as lists of
  rows plus the autoincrement counters for the surrogate ids.
- A Python exception that propagates out of a function is an `Except.error`
  carrying the exception class (`PyError`); the normal return value is
  `Except.ok`.  Python `None` results are `Option.none`.
- Mutating operations return the result value together with the store state
  after the call.
- A SQL query `filter(p)` is `List.filter`, `first()` is `List.find?`,
  `order_by k` is an insertion sort by `k`, `count()` is `List.length`,
  `group_by year` is aggregation over the distinct years.
-/

namespace MovieRestOrmApi

/-- The Python exception classes that the embedded code can raise. -/
inductive PyError where
  | attributeError
  | typeError
deriving DecidableEq, Repr

/-- Row of the Star (Person) table: models.Star. -/
structure Star where
  id : Nat
  name : String
  birthdate : Option String
deriving DecidableEq, Repr

/-- Row of the Movie table: models.Movie, with its director foreign key and the
actor association rows attached to the movie. -/
structure Movie where
  id : Nat
  title : String
  year : Int
  duration : Int
  directorId : Option Nat
  actorIds : List Nat
deriving DecidableEq, Repr

/-- The backing store seen through one session: the two tables and the
autoincrement counters that generate surrogate ids. -/
structure DB where
  movies : List Movie
  stars : List Star
  nextMovieId : Nat
  nextStarId : Nat
deriving DecidableEq, Repr

/-- schemas.MovieCreate: payload of create_movie. -/
structure MovieCreate where
  title : String
  year : Int
  duration : Int
deriving DecidableEq, Repr

/-- schemas.Movie: payload of update_movie (id plus full field set). -/
structure MovieSchema where
  id : Nat
  title : String
  year : Int
  duration : Int
deriving DecidableEq, Repr

/-- schemas.StarCreate: payload of create_star. -/
structure StarCreate where
  name : String
  birthdate : Option String
deriving DecidableEq, Repr

/-- schemas.Star: payload of update_star. -/
structure StarSchema where
  id : Nat
  name : String
  birthdate : Option String
deriving DecidableEq, Repr

/-- The ORM relationship Movie.director: resolves the director foreign key to
the Star row, or None when the key is null (or dangling). -/
def director (db : DB) (m : Movie) : Option Star :=
  m.directorId.bind (fun i => db.stars.find? (fun s => s.id == i))

/-- crud.get_movie (crud.py lines 9-17).  The source logs db_movie.title
before any None check, so when the movie is absent that attribute access on
None raises AttributeError; the next log lines read db_movie.director
(resolved via the relationship) and db_movie.actors, which succeed on a
present row. -/
def get_movie (db : DB) (movie_id : Nat) : Except PyError (Option Movie) :=
  let db_movie := db.movies.find? (fun m => m.id == movie_id)
  match db_movie with
  | none => .error .attributeError
  | some m =>
      let _logTitle := m.title
      let _logDirector :=
        match director db m with
        | some s => s.name
        | none => "no director"
      let _logActors := m.actorIds
      .ok db_movie

/-- crud._get_movies_by_predicate (crud.py lines 22-25).  In the source, db is
a keyword-only parameter with no default; a call that omits it raises
TypeError before the body runs.  We model the argument as an Option, where
none stands for the caller omitting the keyword argument. -/
def _get_movies_by_predicate (predicate : Movie → Bool) (db : Option DB) :
    Except PyError (List Movie) :=
  match db with
  | none => .error .typeError
  | some db => .ok (db.movies.filter predicate)

/-- crud.get_movies_count (crud.py lines 63-64). -/
def get_movies_count (db : DB) : Nat :=
  db.movies.length

/-- crud.get_movies_count_year (crud.py lines 66-67).  The source calls
`_get_movies_by_predicate(models.Movie.year == year)` WITHOUT the required
keyword argument db (every other caller passes db=db), so the call raises
TypeError unconditionally and `.count()` is never reached. -/
def get_movies_count_year (db : DB) (year : Int) : Except PyError Nat :=
  match _get_movies_by_predicate (fun m => m.year == year) none with
  | .error e => .error e
  | .ok q => .ok q.length

/-- Ordering used by `order_by(models.Movie.year, models.Movie.title)`:
lexicographic on (year asc, title asc). -/
def movieLe (a b : Movie) : Prop :=
  a.year < b.year ∨ (a.year = b.year ∧ a.title ≤ b.title)

instance : DecidableRel movieLe := fun a b =>
  inferInstanceAs (Decidable (a.year < b.year ∨ (a.year = b.year ∧ a.title ≤ b.title)))

instance : IsTotal Movie movieLe where
  total a b := by
    rcases lt_trichotomy a.year b.year with h | h | h
    · exact Or.inl (Or.inl h)
    · rcases le_total a.title b.title with ht | ht
      · exact Or.inl (Or.inr ⟨h, ht⟩)
      · exact Or.inr (Or.inr ⟨h.symm, ht⟩)
    · exact Or.inr (Or.inl h)

instance : IsTrans Movie movieLe where
  trans a b c hab hbc := by
    rcases hab with h1 | ⟨h1, t1⟩
    · rcases hbc with h2 | ⟨h2, _⟩
      · exact Or.inl (h1.trans h2)
      · exact Or.inl (h2 ▸ h1)
    · rcases hbc with h2 | ⟨h2, t2⟩
      · exact Or.inl (h1 ▸ h2)
      · exact Or.inr ⟨h1.trans h2, t1.trans t2⟩

/-- crud.get_movies_by_range_year (crud.py lines 42-53): None sentinel when
both bounds are absent, otherwise the movies matching the single inclusive
predicate (between for two bounds), ordered by (year asc, title asc). -/
def get_movies_by_range_year (db : DB) (year_min year_max : Option Int) :
    Except PyError (Option (List Movie)) :=
  match year_min, year_max with
  | none, none => .ok none
  | none, some ymax =>
      match _get_movies_by_predicate (fun m => decide (m.year ≤ ymax)) (some db) with
      | .error e => .error e
      | .ok q => .ok (some (q.insertionSort movieLe))
  | some ymin, none =>
      match _get_movies_by_predicate (fun m => decide (ymin ≤ m.year)) (some db) with
      | .error e => .error e
      | .ok q => .ok (some (q.insertionSort movieLe))
  | some ymin, some ymax =>
      match _get_movies_by_predicate
              (fun m => decide (ymin ≤ m.year) && decide (m.year ≤ ymax)) (some db) with
      | .error e => .error e
      | .ok q => .ok (some (q.insertionSort movieLe))

/-- crud.get_movies_count_by_year (crud.py lines 81-86): SELECT year, count(*)
GROUP BY year ORDER BY year — one (year, count) pair per distinct stored year,
ascending. -/
def get_movies_count_by_year (db : DB) : List (Int × Nat) :=
  (((db.movies.map Movie.year).dedup).insertionSort (· ≤ ·)).map
    (fun y => (y, (db.movies.filter (fun m => m.year == y)).length))

/-- crud.get_star (crud.py lines 168-171). -/
def get_star (db : DB) (star_id : Nat) : Option Star :=
  db.stars.find? (fun s => s.id == star_id)

/-- crud.get_star_director_movie (crud.py lines 196-202): filter movies on the
id, inner-join the director relationship (dropping movies whose director
foreign key is null or dangling), take the first row, and return its
director; None when no row survives. -/
def get_star_director_movie (db : DB) (movie_id : Nat) : Option Star :=
  let db_movie :=
    (db.movies.filter (fun m => m.id == movie_id)).find?
      (fun m => (director db m).isSome)
  match db_movie with
  | some m => director db m
  | none => none

/-- crud.create_movie (crud.py lines 129-137): insert with the generated id
and return the refreshed row. -/
def create_movie (db : DB) (movie : MovieCreate) : Movie × DB :=
  let db_movie : Movie :=
    { id := db.nextMovieId, title := movie.title, year := movie.year,
      duration := movie.duration, directorId := none, actorIds := [] }
  (db_movie,
   { db with movies := db.movies ++ [db_movie], nextMovieId := db.nextMovieId + 1 })

/-- crud.update_movie (crud.py lines 139-149): overwrite title, year, duration
of the matching row and commit; None and no write when the id is unknown. -/
def update_movie (db : DB) (movie : MovieSchema) : Option Movie × DB :=
  match db.movies.find? (fun m => m.id == movie.id) with
  | none => (none, db)
  | some db_movie =>
      let m2 := { db_movie with
                    title := movie.title, year := movie.year,
                    duration := movie.duration }
      (some m2,
       { db with movies := db.movies.map (fun x => if x.id == db_movie.id then m2 else x) })

/-- crud.create_star (crud.py lines 217-225). -/
def create_star (db : DB) (star : StarCreate) : Star × DB :=
  let db_star : Star :=
    { id := db.nextStarId, name := star.name, birthdate := star.birthdate }
  (db_star,
   { db with stars := db.stars ++ [db_star], nextStarId := db.nextStarId + 1 })

/-- crud.update_star (crud.py lines 227-236): overwrite name and birthdate of
the matching row and commit; None and no write when the id is unknown. -/
def update_star (db : DB) (star : StarSchema) : Option Star × DB :=
  match db.stars.find? (fun s => s.id == star.id) with
  | none => (none, db)
  | some db_star =>
      let s2 := { db_star with name := star.name, birthdate := star.birthdate }
      (some s2,
       { db with stars := db.stars.map (fun x => if x.id == db_star.id then s2 else x) })

/-- crud.update_movie_actors (crud.py lines 120-127): fetch the stars whose id
is IN the supplied list (each table row at most once), fetch the movie via
get_movie (which raises if the movie is absent), bail out with None when the
fetched-star count differs from the supplied-list length, otherwise replace
the actor set and commit.  The source never checks db_movie for None; if
get_movie could return None the attribute assignment db_movie.actors would
raise AttributeError. -/
def update_movie_actors (db : DB) (movie_id : Nat) (star_id : List Nat) :
    Except PyError (Option Movie) × DB :=
  let stars_list := db.stars.filter (fun s => star_id.contains s.id)
  match get_movie db movie_id with
  | .error e => (.error e, db)
  | .ok db_movie =>
      if stars_list.length ≠ star_id.length then
        (.ok none, db)
      else
        match db_movie with
        | none => (.error .attributeError, db)
        | some m =>
            let m2 := { m with actorIds := stars_list.map Star.id }
            (.ok (some m2),
             { db with movies := db.movies.map (fun x => if x.id == m.id then m2 else x) })

/-- Characterisation of membership in the inclusive year range described by
an optional pair of bounds (an absent bound constrains nothing), used to
state the range-filter claim. -/
def inRangeOpt (year_min year_max : Option Int) (y : Int) : Prop :=
  (∀ a, year_min = some a → a ≤ y) ∧ (∀ b, year_max = some b → y ≤ b)

/-- Sample star used by concrete witnesses. -/
def starW : Star := ⟨1, "Hitchcock", none⟩

/-- Sample movie (directed by starW) used by concrete witnesses. -/
def movieW : Movie := ⟨1, "Psycho", 1960, 109, some 1, []⟩

/-- Sample store used by concrete witnesses. -/
def dbW : DB := ⟨[movieW], [starW], 2, 2⟩

/-! ### Helper lemmas -/

/-- On a miss, the first log line of get_movie dereferences None, so the call
raises AttributeError instead of returning the None sentinel. -/
theorem get_movie_absent (db : DB) (movie_id : Nat)
    (h : ∀ m ∈ db.movies, m.id ≠ movie_id) :
    get_movie db movie_id = .error .attributeError := by
  have hf : db.movies.find? (fun m => m.id == movie_id) = none := by
    rw [List.find?_eq_none]
    intro m hm
    simpa using h m hm
  simp [get_movie, hf]

/-- find? with an equality test on a key that is duplicate-free returns
exactly the member carrying that key. -/
theorem find?_by_key {α : Type} (key : α → Nat) (l : List α) (m : α)
    (hm : m ∈ l) (hnd : (l.map key).Nodup) :
    l.find? (fun x => key x == key m) = some m := by
  induction l with
  | nil => exact absurd hm (List.not_mem_nil m)
  | cons a t ih =>
      rw [List.map_cons, List.nodup_cons] at hnd
      rcases List.mem_cons.mp hm with rfl | hmt
      · exact List.find?_cons_of_pos t (by simp)
      · have hne : key a ≠ key m := fun he =>
          hnd.1 (he ▸ List.mem_map.mpr ⟨m, hmt, rfl⟩)
        rw [List.find?_cons_of_neg t (by simpa using hne)]
        exact ih hmt hnd.2

/-- filter with an equality test on a key that is duplicate-free returns
exactly the singleton of the member carrying that key. -/
theorem filter_by_key {α : Type} (key : α → Nat) (l : List α) (m : α)
    (hm : m ∈ l) (hnd : (l.map key).Nodup) :
    l.filter (fun x => key x == key m) = [m] := by
  induction l with
  | nil => exact absurd hm (List.not_mem_nil m)
  | cons a t ih =>
      rw [List.map_cons, List.nodup_cons] at hnd
      rcases List.mem_cons.mp hm with rfl | hmt
      · rw [List.filter_cons_of_pos (by simp)]
        have ht : t.filter (fun x => key x == key m) = [] := by
          rw [List.filter_eq_nil_iff]
          intro x hx
          simp only [beq_iff_eq]
          exact fun he => hnd.1 (he ▸ List.mem_map.mpr ⟨x, hx, rfl⟩)
        rw [ht]
      · have hne : key a ≠ key m := fun he =>
          hnd.1 (he ▸ List.mem_map.mpr ⟨m, hmt, rfl⟩)
        rw [List.filter_cons_of_neg (by simpa using hne)]
        exact ih hmt hnd.2

/-! ### Claim theorems -/

/-- C1: the spec says get_movie(id) returns the None sentinel and raises no
error when no movie matches.  The code instead raises AttributeError on every
miss, because line 13 formats db_movie.title before any None check.  This
contradicts the function's own comment ("return object read or None if not
found"), so the code, not the spec, is wrong. -/
theorem get_movie_unknown_id_raises (db : DB) (movie_id : Nat)
    (h : ∀ m ∈ db.movies, m.id ≠ movie_id) :
    get_movie db movie_id = .error .attributeError :=
  get_movie_absent db movie_id h

/-- Witness for C1 at the empty store and id 1. -/
theorem get_movie_unknown_id_raises_witness :
    (∀ m ∈ (DB.mk [] [] 1 1).movies, m.id ≠ 1) ∧
      get_movie (DB.mk [] [] 1 1) 1 = .error .attributeError :=
  ⟨by simp, get_movie_unknown_id_raises (DB.mk [] [] 1 1) 1 (by simp)⟩

/-- C2: the spec says update_movie_actors returns the sentinel and leaves the
actor set unchanged when the movie does not exist.  The code instead raises:
it calls get_movie, whose logging dereferences None (and the function has no
None check of its own before assigning db_movie.actors).  The store is indeed
left unchanged, but the sentinel is never returned for a missing movie. -/
theorem update_movie_actors_missing_movie_raises (db : DB) (movie_id : Nat)
    (star_id : List Nat) (h : ∀ m ∈ db.movies, m.id ≠ movie_id) :
    update_movie_actors db movie_id star_id = (.error .attributeError, db) := by
  simp [update_movie_actors, get_movie_absent db movie_id h]

/-- Witness for C2: one stored star, no movies; every supplied star id
resolves, yet the call raises because movie 5 is absent. -/
theorem update_movie_actors_missing_movie_raises_witness :
    (∀ m ∈ (DB.mk [] [Star.mk 1 "A" none] 1 2).movies, m.id ≠ 5) ∧
      update_movie_actors (DB.mk [] [Star.mk 1 "A" none] 1 2) 5 [1]
        = (.error .attributeError, DB.mk [] [Star.mk 1 "A" none] 1 2) :=
  ⟨by simp,
   update_movie_actors_missing_movie_raises (DB.mk [] [Star.mk 1 "A" none] 1 2)
     5 [1] (by simp)⟩

/-- C3: the spec says get_movies_count_year(year) returns the count of movies
of that year without raising.  The code calls _get_movies_by_predicate without
the required keyword-only argument db (every other caller passes db=db), so
every call raises TypeError and no count is ever produced. -/
theorem get_movies_count_year_always_raises (db : DB) (year : Int) :
    get_movies_count_year db year = .error .typeError := rfl

/-- C5: update_movie and update_star with an unknown id return the None
sentinel and leave the store exactly as it was. -/
theorem update_unknown_id_returns_none_and_preserves_store (db : DB)
    (mv : MovieSchema) (st : StarSchema)
    (hm : ∀ m ∈ db.movies, m.id ≠ mv.id)
    (hs : ∀ s ∈ db.stars, s.id ≠ st.id) :
    update_movie db mv = (none, db) ∧ update_star db st = (none, db) := by
  constructor
  · have hf : db.movies.find? (fun m => m.id == mv.id) = none := by
      rw [List.find?_eq_none]
      intro m hmem
      simpa using hm m hmem
    simp [update_movie, hf]
  · have hf : db.stars.find? (fun s => s.id == st.id) = none := by
      rw [List.find?_eq_none]
      intro s hmem
      simpa using hs s hmem
    simp [update_star, hf]

/-- Witness for C5 at a one-movie, one-star store and unknown ids. -/
theorem update_unknown_id_returns_none_and_preserves_store_witness :
    (∀ m ∈ (DB.mk [Movie.mk 1 "M" 2000 100 none []] [Star.mk 1 "A" none] 2 2).movies,
        m.id ≠ (MovieSchema.mk 9 "X" 1999 90).id) ∧
    (∀ s ∈ (DB.mk [Movie.mk 1 "M" 2000 100 none []] [Star.mk 1 "A" none] 2 2).stars,
        s.id ≠ (StarSchema.mk 9 "Y" none).id) ∧
    (update_movie (DB.mk [Movie.mk 1 "M" 2000 100 none []] [Star.mk 1 "A" none] 2 2)
        (MovieSchema.mk 9 "X" 1999 90)
      = (none, DB.mk [Movie.mk 1 "M" 2000 100 none []] [Star.mk 1 "A" none] 2 2) ∧
     update_star (DB.mk [Movie.mk 1 "M" 2000 100 none []] [Star.mk 1 "A" none] 2 2)
        (StarSchema.mk 9 "Y" none)
      = (none, DB.mk [Movie.mk 1 "M" 2000 100 none []] [Star.mk 1 "A" none] 2 2)) :=
  ⟨by simp, by simp,
   update_unknown_id_returns_none_and_preserves_store
     (DB.mk [Movie.mk 1 "M" 2000 100 none []] [Star.mk 1 "A" none] 2 2)
     (MovieSchema.mk 9 "X" 1999 90) (StarSchema.mk 9 "Y" none)
     (by simp) (by simp)⟩

/-- C9: neither update_movie nor update_star ever modifies an id: the list of
stored ids (of every row, matched or not) is exactly the same after the call,
for every input. -/
theorem update_preserves_ids (db : DB) (mv : MovieSchema) (st : StarSchema) :
    (update_movie db mv).2.movies.map Movie.id = db.movies.map Movie.id ∧
      (update_star db st).2.stars.map Star.id = db.stars.map Star.id := by
  constructor
  · unfold update_movie
    cases hf : db.movies.find? (fun m => m.id == mv.id) with
    | none => rfl
    | some db_movie =>
        simp only [List.map_map]
        apply List.map_congr_left
        intro x _
        by_cases h : x.id = db_movie.id
        · simp [Function.comp, h]
        · simp [Function.comp, h]
  · unfold update_star
    cases hf : db.stars.find? (fun s => s.id == st.id) with
    | none => rfl
    | some db_star =>
        simp only [List.map_map]
        apply List.map_congr_left
        intro x _
        by_cases h : x.id = db_star.id
        · simp [Function.comp, h]
        · simp [Function.comp, h]

/-- find? over a list extended with one fresh-keyed element finds exactly the
new element. -/
theorem find?_append_fresh {α : Type} (key : α → Nat) (l : List α) (x : α)
    (h : ∀ a ∈ l, key a ≠ key x) :
    (l ++ [x]).find? (fun a => key a == key x) = some x := by
  rw [List.find?_append]
  have h1 : l.find? (fun a => key a == key x) = none := by
    rw [List.find?_eq_none]
    intro a ha
    simpa using h a ha
  rw [h1]
  simp [List.find?]

/-- C4: get_star_director_movie returns the resolved director of the matching
movie; it returns None both when no movie carries the id and when the
matching movie has no (resolved) director, and the two None cases carry no
distinguishing information. -/
theorem get_star_director_movie_spec (db : DB) (movie_id : Nat)
    (hnd : (db.movies.map Movie.id).Nodup) :
    (∀ m ∈ db.movies, m.id = movie_id →
        ∀ s, director db m = some s →
          get_star_director_movie db movie_id = some s) ∧
    ((∀ m ∈ db.movies, m.id ≠ movie_id) →
        get_star_director_movie db movie_id = none) ∧
    (∀ m ∈ db.movies, m.id = movie_id → director db m = none →
        get_star_director_movie db movie_id = none) := by
  refine ⟨?_, ?_, ?_⟩
  · intro m hm hid s hs
    subst hid
    have hfil : db.movies.filter (fun x => x.id == m.id) = [m] :=
      filter_by_key Movie.id db.movies m hm hnd
    simp [get_star_director_movie, hfil, List.find?, hs]
  · intro h
    have hfil : db.movies.filter (fun x => x.id == movie_id) = [] := by
      rw [List.filter_eq_nil_iff]
      intro x hx
      simpa using h x hx
    simp [get_star_director_movie, hfil]
  · intro m hm hid hdir
    subst hid
    have hfil : db.movies.filter (fun x => x.id == m.id) = [m] :=
      filter_by_key Movie.id db.movies m hm hnd
    simp [get_star_director_movie, hfil, List.find?, hdir]

/-- Witness for C4: in the sample store, movie 1 resolves to its director. -/
theorem get_star_director_movie_spec_witness :
    ((dbW.movies.map Movie.id).Nodup ∧ movieW ∈ dbW.movies ∧
      movieW.id = 1 ∧ director dbW movieW = some starW) ∧
      get_star_director_movie dbW 1 = some starW :=
  ⟨⟨by decide, by simp [dbW], rfl, rfl⟩,
   (get_star_director_movie_spec dbW 1 (by decide)).1 movieW
     (by simp [dbW]) rfl starW rfl⟩

/-- C6: create_movie (resp. create_star) followed by get_movie (resp.
get_star) on the returned record's id yields that record back; its supplied
fields equal the input payload and its id is the store-generated counter
value. -/
theorem create_then_get_roundtrip (db : DB) (mc : MovieCreate) (sc : StarCreate)
    (hm : ∀ m ∈ db.movies, m.id ≠ db.nextMovieId)
    (hs : ∀ s ∈ db.stars, s.id ≠ db.nextStarId) :
    (∀ M db2, create_movie db mc = (M, db2) →
      get_movie db2 M.id = .ok (some M) ∧ M.title = mc.title ∧
        M.year = mc.year ∧ M.duration = mc.duration ∧ M.id = db.nextMovieId) ∧
    (∀ S db2, create_star db sc = (S, db2) →
      get_star db2 S.id = some S ∧ S.name = sc.name ∧
        S.birthdate = sc.birthdate ∧ S.id = db.nextStarId) := by
  constructor
  · intro M db2 h
    rw [create_movie, Prod.mk.injEq] at h
    obtain ⟨hM, hdb2⟩ := h
    subst hM
    subst hdb2
    refine ⟨?_, rfl, rfl, rfl, rfl⟩
    have hfind := find?_append_fresh Movie.id db.movies
      (Movie.mk db.nextMovieId mc.title mc.year mc.duration none [])
      (fun a ha => hm a ha)
    simp only [get_movie]
    rw [hfind]
  · intro S db2 h
    rw [create_star, Prod.mk.injEq] at h
    obtain ⟨hS, hdb2⟩ := h
    subst hS
    subst hdb2
    refine ⟨?_, rfl, rfl, rfl⟩
    have hfind := find?_append_fresh Star.id db.stars
      (Star.mk db.nextStarId sc.name sc.birthdate)
      (fun a ha => hs a ha)
    simp only [get_star]
    rw [hfind]

/-- Witness for C6: creating a movie in the sample store yields the record
with generated id 2, and reading id 2 back returns it. -/
theorem create_then_get_roundtrip_witness :
    get_movie (DB.mk [movieW, Movie.mk 2 "Vertigo" 1958 128 none []] [starW] 3 2) 2
        = .ok (some (Movie.mk 2 "Vertigo" 1958 128 none [])) ∧
      (Movie.mk 2 "Vertigo" 1958 128 none []).id = dbW.nextMovieId :=
  ⟨((create_then_get_roundtrip dbW (MovieCreate.mk "Vertigo" 1958 128)
        (StarCreate.mk "Stewart" none) (by decide) (by decide)).1
      (Movie.mk 2 "Vertigo" 1958 128 none [])
      (DB.mk [movieW, Movie.mk 2 "Vertigo" 1958 128 none []] [starW] 3 2) rfl).1,
   ((create_then_get_roundtrip dbW (MovieCreate.mk "Vertigo" 1958 128)
        (StarCreate.mk "Stewart" none) (by decide) (by decide)).1
      (Movie.mk 2 "Vertigo" 1958 128 none [])
      (DB.mk [movieW, Movie.mk 2 "Vertigo" 1958 128 none []] [starW] 3 2) rfl).2.2.2.2⟩

/-- C10: when the supplied actor-id list contains a duplicate, the IN query
returns each matching star row once, so the fetched-star count is strictly
below the list length; the call therefore returns the None sentinel and the
store (in particular the movie's actor set) is unchanged, even though every
supplied id resolves and the movie exists. -/
theorem update_movie_actors_duplicate_ids_rejected (db : DB) (movie_id : Nat)
    (star_id : List Nat)
    (hnd : (db.stars.map Star.id).Nodup)
    (hmv : ∃ m ∈ db.movies, m.id = movie_id)
    (hres : ∀ i ∈ star_id, ∃ s ∈ db.stars, s.id = i)
    (hdup : ¬ star_id.Nodup) :
    update_movie_actors db movie_id star_id = (.ok none, db) := by
  obtain ⟨m, hm, hid⟩ := hmv
  have hsome : (db.movies.find? (fun x => x.id == movie_id)).isSome := by
    rw [List.find?_isSome]
    exact ⟨m, hm, by simpa using hid⟩
  obtain ⟨m0, hm0⟩ := Option.isSome_iff_exists.mp hsome
  have hget : get_movie db movie_id = .ok (some m0) := by
    simp [get_movie, hm0]
  have hlen : (db.stars.filter (fun s => star_id.contains s.id)).length
      < star_id.length := by
    have hsl : ((db.stars.filter (fun s => star_id.contains s.id)).map Star.id).Nodup :=
      ((List.filter_sublist db.stars).map Star.id).nodup hnd
    have hsubset : (db.stars.filter (fun s => star_id.contains s.id)).map Star.id
        ⊆ star_id.dedup := by
      intro i hi
      rw [List.mem_dedup]
      obtain ⟨s, hsmem, rfl⟩ := List.mem_map.mp hi
      have hc := (List.mem_filter.mp hsmem).2
      exact List.elem_iff.mp hc
    have hsp := List.subperm_of_subset hsl hsubset
    have h6 := hsp.length_le
    rw [List.length_map] at h6
    have h7 : star_id.dedup.length < star_id.length := by
      rcases Nat.lt_or_ge star_id.dedup.length star_id.length with h | h
      · exact h
      · exfalso
        have heq := (List.dedup_sublist star_id).eq_of_length
          (Nat.le_antisymm (List.dedup_sublist star_id).length_le h)
        exact hdup (heq ▸ List.nodup_dedup star_id)
    exact Nat.lt_of_le_of_lt h6 h7
  have hne : (db.stars.filter (fun s => star_id.contains s.id)).length
      ≠ star_id.length := Nat.ne_of_lt hlen
  have hne2 : ¬ (db.stars.filter (fun s => decide (s.id ∈ star_id))).length
      = star_id.length := by simpa using hne
  simp [update_movie_actors, hget, hne2]

/-- Witness for C10: in the sample store, replacing the actors of movie 1 by
the duplicated list of star 1 (which exists) is rejected with no change. -/
theorem update_movie_actors_duplicate_ids_rejected_witness :
    ((dbW.stars.map Star.id).Nodup ∧ (∃ m ∈ dbW.movies, m.id = 1) ∧
      (∀ i ∈ ([1, 1] : List Nat), ∃ s ∈ dbW.stars, s.id = i) ∧
      ¬ ([1, 1] : List Nat).Nodup) ∧
      update_movie_actors dbW 1 [1, 1] = (.ok none, dbW) :=
  ⟨⟨by decide, by decide, by decide, by decide⟩,
   update_movie_actors_duplicate_ids_rejected dbW 1 [1, 1]
     (by decide) (by decide) (by decide) (by decide)⟩

/-- C7: the per-year counts of get_movies_count_by_year sum to
get_movies_count, and the (year, count) pairs come out ordered by year
ascending. -/
theorem count_by_year_sums_and_sorted (db : DB) :
    ((get_movies_count_by_year db).map Prod.snd).sum = get_movies_count db ∧
    ((get_movies_count_by_year db).map Prod.fst).Sorted (· ≤ ·) := by
  constructor
  · unfold get_movies_count_by_year get_movies_count
    rw [List.map_map]
    have hcomp :
        (Prod.snd ∘ fun y => (y, (db.movies.filter (fun m => m.year == y)).length))
          = fun y : Int => (db.movies.filter (fun m => m.year == y)).length := rfl
    rw [hcomp]
    have hperm :
        (((db.movies.map Movie.year).dedup).insertionSort (· ≤ ·)).Perm
          (db.movies.map Movie.year).dedup := List.perm_insertionSort _ _
    rw [(hperm.map _).sum_eq]
    have h2 : ∀ y : Int, (db.movies.filter (fun m => m.year == y)).length
        = (db.movies.map Movie.year).count y := by
      intro y
      rw [List.count_eq_countP, List.countP_map, List.countP_eq_length_filter]
      rfl
    rw [List.map_congr_left (fun y _ => h2 y)]
    rw [List.sum_map_count_dedup_eq_length]
    exact List.length_map _ _
  · unfold get_movies_count_by_year
    rw [List.map_map]
    have hcomp :
        (Prod.fst ∘ fun y : Int => (y, (db.movies.filter (fun m => m.year == y)).length))
          = id := rfl
    rw [hcomp, List.map_id]
    exact List.sorted_insertionSort _ _

/-- C8: with both bounds absent, get_movies_by_range_year returns the None
sentinel, which differs from every real (possibly empty) result list; with at
least one bound present it returns exactly the stored movies whose year lies
in the inclusive range the bounds describe, sorted by (year asc, title
asc). -/
theorem range_year_sentinel_and_filter_spec (db : DB)
    (year_min year_max : Option Int) :
    (get_movies_by_range_year db none none = .ok none ∧
      ∀ l : List Movie, get_movies_by_range_year db none none ≠ .ok (some l)) ∧
    (year_min.isSome ∨ year_max.isSome →
      ∃ l, get_movies_by_range_year db year_min year_max = .ok (some l) ∧
        (∀ m, m ∈ l ↔ m ∈ db.movies ∧ inRangeOpt year_min year_max m.year) ∧
        l.Sorted movieLe) := by
  refine ⟨⟨rfl, fun l h => by simp [get_movies_by_range_year] at h⟩, ?_⟩
  rcases year_min with _ | ymin <;> rcases year_max with _ | ymax
  · intro h
    rcases h with h | h <;> simp at h
  · intro _
    refine ⟨_, rfl, ?_, List.sorted_insertionSort _ _⟩
    intro m
    rw [(List.perm_insertionSort movieLe _).mem_iff, List.mem_filter]
    simp [inRangeOpt]
  · intro _
    refine ⟨_, rfl, ?_, List.sorted_insertionSort _ _⟩
    intro m
    rw [(List.perm_insertionSort movieLe _).mem_iff, List.mem_filter]
    simp [inRangeOpt]
  · intro _
    refine ⟨_, rfl, ?_, List.sorted_insertionSort _ _⟩
    intro m
    rw [(List.perm_insertionSort movieLe _).mem_iff, List.mem_filter]
    simp [inRangeOpt]

/-- Witness for C8: a lower bound alone filters the sample store. -/
theorem range_year_sentinel_and_filter_spec_witness :
    ((some (1959 : Int)).isSome ∨ (none : Option Int).isSome) ∧
      ∃ l, get_movies_by_range_year dbW (some 1959) none = .ok (some l) ∧
        (∀ m, m ∈ l ↔ m ∈ dbW.movies ∧ inRangeOpt (some 1959) none m.year) ∧
        l.Sorted movieLe :=
  ⟨Or.inl rfl,
   (range_year_sentinel_and_filter_spec dbW (some 1959) none).2 (Or.inl rfl)⟩

end MovieRestOrmApi
